import Mathlib

/-!
Shallow embedding of the Eurovision collusion-detection notebook: the cleaning and
merging of jury/televote records, the per-year maxima, the normalized points table,
and the Monte Carlo favouritism/collusion test.  Random rank draws made by the
notebook rng are passed to the embedded functions as explicit arguments.
-/

namespace Eurovision

/-- Raw cleaned vote row: the columns Year, Jury_or_Televoting, From_country,
To_country and Points of the cleaned csv of the collusion notebook. -/
structure RawRow where
  year : Int
  jorT : String
  fromC : String
  toC : String
  points : Int
deriving DecidableEq, Repr

/-- Helper for dropDuplicates: keep the first occurrence of each element, carrying
the set of elements already seen. -/
def keepFirst {α : Type} [DecidableEq α] : List α → List α → List α
  | _, [] => []
  | seen, x :: xs => if x ∈ seen then keepFirst seen xs else x :: keepFirst (x :: seen) xs

/-- Embedding of pandas drop_duplicates with default arguments, as applied to the five
selected columns in the cleaning cell: fully equal rows are collapsed to their first
occurrence; rows differing in any column are all kept. -/
def dropDuplicates {α : Type} [DecidableEq α] (l : List α) : List α := keepFirst [] l

/-- Combined row: one row of combined_csv after the self-join on
(Year, From_country, To_country), the dual-voting filter, the zeroing of televotes
for years up to 2015, and the Points_total column. -/
structure CombRow where
  year : Int
  fromC : String
  toC : String
  ptsJury : Int
  ptsTele : Int
  ptsTotal : Int
deriving DecidableEq, Repr

/-- Embedding of the combined_csv cell: the cleaned csv is joined with itself on
(Year, From_country, To_country) (suffixes _Jury for the left copy and _Televote for
the right copy; with both sides equal, the right join produces every matching
left/right pair of rows).  Rows are kept when Year < 2016 or when Year is at least
2016 and the left row is a jury row and the right row is a televote row.  Televote
points of years up to 2015 are forced to 0, and Points_total is the sum. -/
def combinedCsv (csv : List RawRow) : List CombRow :=
  let joined := csv.flatMap (fun r =>
    (csv.filter (fun l => decide (l.year = r.year ∧ l.fromC = r.fromC ∧ l.toC = r.toC))).map
      (fun l => (l, r)))
  let filtered := joined.filter (fun p =>
    decide (p.1.year < 2016 ∨ (2016 ≤ p.1.year ∧ p.1.jorT = "J" ∧ p.2.jorT = "T")))
  filtered.map (fun p =>
    let tele := if p.1.year ≤ 2015 then 0 else p.2.points
    { year := p.1.year, fromC := p.1.fromC, toC := p.1.toC,
      ptsJury := p.1.points, ptsTele := tele, ptsTotal := p.1.points + tele })

/-- Maximum jury points awarded in a given year among the combined rows.  The notebook
takes per-(Year, From_country) maxima and then the maximum over donors, which equals
the plain maximum over all rows of the year. -/
def maxJury (rows : List CombRow) (y : Int) : Int :=
  ((rows.filter (fun c => decide (c.year = y))).map (fun c => c.ptsJury)).foldr max 0

/-- Maximum televote points awarded in a given year among the combined rows. -/
def maxTele (rows : List CombRow) (y : Int) : Int :=
  ((rows.filter (fun c => decide (c.year = y))).map (fun c => c.ptsTele)).foldr max 0

/-- MAX_POSSIBLE_POINTS_RECEIVED of a year: the maximum jury points of the year plus the
maximum televote points of the year, from max_each_year. -/
def highest (rows : List CombRow) (y : Int) : Int := maxJury rows y + maxTele rows y

/-- HAS_TELEVOTE_BY_YEAR of a year: whether the maximum televote points of the year differ
from 0, from max_each_year. -/
def hasTelevoteYear (rows : List CombRow) (y : Int) : Bool :=
  decide (maxTele rows y ≠ 0)

/-- Row of the normalized points table: Points_total divided by the
MAX_POSSIBLE_POINTS_RECEIVED.  Only the Points_total column is carried, being the one
the favouritism test reads. -/
structure PRow where
  year : Int
  fromC : String
  toC : String
  ptsTotal : Rat
deriving DecidableEq, Repr

/-- Embedding of the points table: every combined row, with its total points divided
by the highest value of its year. -/
def pointsTable (rows : List CombRow) : List PRow :=
  rows.map (fun c =>
    { year := c.year, fromC := c.fromC, toC := c.toC,
      ptsTotal := (c.ptsTotal : Rat) / (highest rows c.year : Rat) })

/-- np.searchsorted with side left on a sorted breaks list: the number of breaks
strictly below the probe value, which is the leftmost insertion index. -/
def searchsorted (breaks : List Rat) (v : Rat) : Nat :=
  (breaks.filter (fun b => decide (b < v))).length

/-- The breakpoint list [1, 1.5, 2, 2.5, 3, 4, 5, 6, 7, 8, 9, 10] that the notebook
feeds to np.searchsorted. -/
def scoreBreaks : List Rat := [1, 3 / 2, 2, 5 / 2, 3, 4, 5, 6, 7, 8, 9, 10]

/-- Rank-to-points conversion of both simulators:
np.where(ranks > 10, 0, 12 - np.searchsorted(scoreBreaks, ranks)). -/
def rankToPoints (r : Nat) : Int :=
  if 10 < r then 0 else 12 - (searchsorted scoreBreaks (r : Rat) : Int)

/-- The Eurovision score ladder for ranks 1..10. -/
def scoreLadder : List Int := [12, 10, 8, 7, 6, 5, 4, 3, 2, 1]

/-- Arithmetic mean of a list of rationals, as computed by pandas and numpy mean. -/
def mean (l : List Rat) : Rat := l.sum / (l.length : Rat)

/-- The year-indexed lookup tables the favouritism test reads: PARTICIPANTS_BY_YEAR,
HAS_TELEVOTE_BY_YEAR and MAX_POSSIBLE_POINTS_RECEIVED. -/
structure Env where
  participants : Int → Nat
  hasTelevote : Int → Bool
  maxPts : Int → Rat

/-- One simulated trial: a row of jury ranks and a row of televote ranks, one per year
of the timespan.  Televote ranks of years without a televote are replaced by 256 (the
arbitrary notebook value above 10).  Both rows are mapped through rankToPoints,
summed pointwise, and divided by the maximum receivable points of the year. -/
def simTrialPoints (env : Env) (timespan : List Int) (juryRow teleRow : List Nat) :
    List Rat :=
  let jPts := (juryRow.zip timespan).map (fun p => rankToPoints p.1)
  let tPts := (teleRow.zip timespan).map (fun p =>
    rankToPoints (if env.hasTelevote p.2 then p.1 else 256))
  ((jPts.zipWith (fun a b => a + b) tPts).zip timespan).map
    (fun p => (p.1 : Rat) / env.maxPts p.2)

/-- SimulationBatch: the list simulation_avgs of per-trial averages, one entry per
simulated row of ranks. -/
def simulationBatch (env : Env) (timespan : List Int)
    (juryDraws teleDraws : List (List Nat)) : List Rat :=
  (juryDraws.zip teleDraws).map (fun d => mean (simTrialPoints env timespan d.1 d.2))

/-- np.percentile with the default linear interpolation between order statistics, on an
already sorted list. -/
def npPercentile (a : List Rat) (q : Rat) : Rat :=
  match a with
  | [] => 0
  | _ :: _ =>
    let pos : Rat := q / 100 * ((a.length : Rat) - 1)
    let i : Nat := pos.floor.toNat
    let lo := a.getD i 0
    let hi := a.getD (i + 1) lo
    lo + (pos - (i : Rat)) * (hi - lo)

/-- Applicable span: the rows of the points table whose year lies between the start and
end years and whose donor and recipient match, from the by_year selection. -/
def applicableSpan (csv : List PRow) (x y : String) (ys ye : Int) : List PRow :=
  csv.filter (fun r => decide (ys ≤ r.year ∧ r.year ≤ ye ∧ r.fromC = x ∧ r.toC = y))

/-- Observed mean: by_year.Points_total.mean(), the actual_average of the notebook. -/
def observedMean (csv : List PRow) (x y : String) (ys ye : Int) : Rat :=
  mean ((applicableSpan csv x y ys ye).map (fun r => r.ptsTotal))

/-- Timespan of a favouritism call: the Year column of the applicable span. -/
def spanYears (csv : List PRow) (x y : String) (ys ye : Int) : List Int :=
  (applicableSpan csv x y ys ye).map (fun r => r.year)

/-- Sorted simulated distribution of one favouritism call: the simulation batch over
the years of the applicable span, sorted ascending. -/
def sortedBatch (env : Env) (csv : List PRow) (x y : String) (ys ye : Int)
    (juryDraws teleDraws : List (List Nat)) : List Rat :=
  List.insertionSort (fun a b => a ≤ b)
    (simulationBatch env (spanYears csv x y ys ye) juryDraws teleDraws)

/-- Threshold value: np.percentile(simluated_distribution, confidence_threshold). -/
def thresholdValue (env : Env) (csv : List PRow) (x y : String) (ys ye : Int)
    (juryDraws teleDraws : List (List Nat)) (conf : Rat) : Rat :=
  npPercentile (sortedBatch env csv x y ys ye juryDraws teleDraws) conf

/-- Embedding of the favouritism function with its default return value: some false
when donor and recipient coincide (the notebook returns False before any other work),
none when no row matches (the notebook returns None), and otherwise some of the
comparison actual_average > simulated percentile.  The random rank matrices drawn by
rng.integers inside the two simulators are passed explicitly. -/
def favouritism (env : Env) (csv : List PRow) (x y : String) (ys ye : Int)
    (juryDraws teleDraws : List (List Nat)) (conf : Rat) : Option Bool :=
  if x = y then some false
  else if applicableSpan csv x y ys ye = [] then none
  else some (decide (thresholdValue env csv x y ys ye juryDraws teleDraws conf <
    observedMean csv x y ys ye))

/-- Embedding of the collusion function: the Python expression
favouritism(x, y) and favouritism(y, x), where the and operator returns its first
operand when that operand is falsy (None or False) and its second operand otherwise.
Each of the two calls receives its own random draws. -/
def collusion (env : Env) (csv : List PRow) (x y : String) (ys ye : Int)
    (jD1 tD1 jD2 tD2 : List (List Nat)) (conf : Rat) : Option Bool :=
  match favouritism env csv x y ys ye jD1 tD1 conf with
  | none => none
  | some false => some false
  | some true => favouritism env csv y x ys ye jD2 tD2 conf

/-- Sample environment used to instantiate theorems at concrete inputs: 26 participants
every year, no televote, 22 maximum receivable points. -/
def sampleEnv : Env := ⟨fun _ => 26, fun _ => false, fun _ => 22⟩

/-! Helper lemmas. -/

/-- Every member of a list is bounded by a foldr of max over the list. -/
theorem mem_le_foldr_max {l : List Int} {a : Int} (b : Int) (h : a ∈ l) :
    a ≤ l.foldr max b := by
  induction l with
  | nil => cases h
  | cons c cs ih =>
    rcases List.mem_cons.mp h with h1 | h1
    · rw [h1, List.foldr_cons]
      exact le_max_left c (cs.foldr max b)
    · exact le_trans (ih h1) (le_max_right c (cs.foldr max b))

/-- rankToPoints never yields negative points. -/
theorem rankToPoints_nonneg (r : Nat) : 0 ≤ rankToPoints r := by
  unfold rankToPoints
  split
  · exact le_refl 0
  · have hb : searchsorted scoreBreaks (r : Rat) ≤ 12 := by
      have := List.length_filter_le (fun b => decide (b < (r : Rat))) scoreBreaks
      simpa [searchsorted, scoreBreaks] using this
    omega

/-- Mean of a list of nonnegative rationals is nonnegative. -/
theorem mean_nonneg {l : List Rat} (h : ∀ x ∈ l, 0 ≤ x) : 0 ≤ mean l := by
  unfold mean
  exact div_nonneg (List.sum_nonneg h) (by positivity)

/-- Pointwise sums of two lists of nonnegative integers are nonnegative. -/
theorem zipWith_add_nonneg :
    ∀ {l1 l2 : List Int}, (∀ a ∈ l1, 0 ≤ a) → (∀ a ∈ l2, 0 ≤ a) →
      ∀ a ∈ List.zipWith (fun a b => a + b) l1 l2, 0 ≤ a
  | [], _, _, _, _, h => by cases h
  | _ :: _, [], _, _, _, h => by cases h
  | x :: xs, y :: ys, h1, h2, a, h => by
    rcases List.mem_cons.mp h with h3 | h3
    · subst h3
      have hx := h1 x (List.mem_cons_self x xs)
      have hy := h2 y (List.mem_cons_self y ys)
      show (0 : Int) ≤ x + y
      omega
    · exact zipWith_add_nonneg (fun c hc => h1 c (List.mem_cons_of_mem x hc))
        (fun c hc => h2 c (List.mem_cons_of_mem y hc)) a h3

/-- Every normalized per-year value of a simulated trial is nonnegative, provided the
maximum receivable points of every year of the timespan is nonnegative. -/
theorem simTrialPoints_nonneg (env : Env) (timespan : List Int) (jr tr : List Nat)
    (hmax : ∀ yr ∈ timespan, 0 ≤ env.maxPts yr) :
    ∀ q ∈ simTrialPoints env timespan jr tr, 0 ≤ q := by
  intro q hq
  unfold simTrialPoints at hq
  rcases List.mem_map.mp hq with ⟨p, hp, hq1⟩
  have hyr : p.2 ∈ timespan := (List.of_mem_zip hp).2
  have hpt : 0 ≤ p.1 := by
    refine zipWith_add_nonneg ?_ ?_ p.1 (List.of_mem_zip hp).1
    · intro a ha
      rcases List.mem_map.mp ha with ⟨u, _, ha1⟩
      simpa [← ha1] using rankToPoints_nonneg u.1
    · intro a ha
      rcases List.mem_map.mp ha with ⟨u, _, ha1⟩
      simpa [← ha1] using rankToPoints_nonneg _
  rw [← hq1]
  exact div_nonneg (by exact_mod_cast hpt) (hmax p.2 hyr)

/-- Every entry of a simulation batch is nonnegative, provided the maximum receivable
points of every year of the timespan is nonnegative. -/
theorem simulationBatch_nonneg (env : Env) (timespan : List Int)
    (jD tD : List (List Nat)) (hmax : ∀ yr ∈ timespan, 0 ≤ env.maxPts yr) :
    ∀ v ∈ simulationBatch env timespan jD tD, 0 ≤ v := by
  intro v hv
  unfold simulationBatch at hv
  rcases List.mem_map.mp hv with ⟨d, _, hv1⟩
  rw [← hv1]
  exact mean_nonneg (simTrialPoints_nonneg env timespan d.1 d.2 hmax)

/-- Membership characterization of keepFirst: an element appears in the result exactly
when it appears in the input and was not already seen. -/
theorem mem_keepFirst {α : Type} [DecidableEq α] :
    ∀ (l seen : List α) (x : α), x ∈ keepFirst seen l ↔ x ∈ l ∧ x ∉ seen
  | [], seen, x => by simp [keepFirst]
  | y :: ys, seen, x => by
    unfold keepFirst
    by_cases hy : y ∈ seen
    · rw [if_pos hy, mem_keepFirst ys seen x]
      constructor
      · rintro ⟨h1, h2⟩
        exact ⟨List.mem_cons_of_mem y h1, h2⟩
      · rintro ⟨h1, h2⟩
        rcases List.mem_cons.mp h1 with h3 | h3
        · exact absurd (h3 ▸ hy) h2
        · exact ⟨h3, h2⟩
    · rw [if_neg hy]
      by_cases hxy : x = y
      · subst hxy
        simp [hy]
      · rw [List.mem_cons]
        rw [show (x = y ∨ x ∈ keepFirst (y :: seen) ys) ↔ x ∈ keepFirst (y :: seen) ys by
          simp [hxy]]
        rw [mem_keepFirst ys (y :: seen) x]
        simp [hxy]

/-- keepFirst never repeats an element. -/
theorem nodup_keepFirst {α : Type} [DecidableEq α] :
    ∀ (l seen : List α), (keepFirst seen l).Nodup
  | [], _ => List.nodup_nil
  | y :: ys, seen => by
    unfold keepFirst
    by_cases hy : y ∈ seen
    · rw [if_pos hy]
      exact nodup_keepFirst ys seen
    · rw [if_neg hy]
      refine List.nodup_cons.mpr ⟨?_, nodup_keepFirst ys (y :: seen)⟩
      intro hmem
      exact ((mem_keepFirst ys (y :: seen) y).mp hmem).2 (List.mem_cons_self y seen)

/-- Decomposition of membership in the combined record set: every combined row comes
from a matching left and right raw row passing the dual-voting filter. -/
theorem mem_combinedCsv {csv : List RawRow} {c : CombRow} (hc : c ∈ combinedCsv csv) :
    ∃ l r, l ∈ csv ∧ r ∈ csv ∧ l.year = r.year ∧ l.fromC = r.fromC ∧ l.toC = r.toC ∧
      (l.year < 2016 ∨ (2016 ≤ l.year ∧ l.jorT = "J" ∧ r.jorT = "T")) ∧
      c.year = l.year ∧ c.fromC = l.fromC ∧ c.toC = l.toC ∧
      c.ptsJury = l.points ∧ c.ptsTele = (if l.year ≤ 2015 then 0 else r.points) ∧
      c.ptsTotal = c.ptsJury + c.ptsTele := by
  unfold combinedCsv at hc
  simp only [List.mem_map, List.mem_filter, List.mem_flatMap, decide_eq_true_eq] at hc
  obtain ⟨p, ⟨⟨r, hr, l, ⟨hlmem, hlkey⟩, hl2⟩, hcond⟩, hcc⟩ := hc
  subst hl2
  refine ⟨l, r, hlmem, hr, hlkey.1, hlkey.2.1, hlkey.2.2, hcond, ?_⟩
  rw [← hcc]
  simp

/-- Every row of the combined set has its jury points bounded by the year maximum. -/
theorem ptsJury_le_maxJury {rows : List CombRow} {c : CombRow} (hc : c ∈ rows) :
    c.ptsJury ≤ maxJury rows c.year := by
  unfold maxJury
  refine mem_le_foldr_max 0 ?_
  exact List.mem_map.mpr ⟨c, List.mem_filter.mpr ⟨hc, by simp⟩, rfl⟩

/-- Every row of the combined set has its televote points bounded by the year maximum. -/
theorem ptsTele_le_maxTele {rows : List CombRow} {c : CombRow} (hc : c ∈ rows) :
    c.ptsTele ≤ maxTele rows c.year := by
  unfold maxTele
  refine mem_le_foldr_max 0 ?_
  exact List.mem_map.mpr ⟨c, List.mem_filter.mpr ⟨hc, by simp⟩, rfl⟩

/-- The collusion test is truthy exactly when both directions are significant. -/
theorem collusion_eq_true_iff (env : Env) (csv : List PRow) (x y : String) (ys ye : Int)
    (jD1 tD1 jD2 tD2 : List (List Nat)) (conf : Rat) :
    collusion env csv x y ys ye jD1 tD1 jD2 tD2 conf = some true ↔
      (favouritism env csv x y ys ye jD1 tD1 conf = some true ∧
       favouritism env csv y x ys ye jD2 tD2 conf = some true) := by
  unfold collusion
  cases h1 : favouritism env csv x y ys ye jD1 tD1 conf with
  | none => simp
  | some b => cases b <;> simp

/-! Claim theorems. -/

/-- C1: with a non-empty applicable span (and donor distinct from recipient, so that
the test runs), the favouritism test yields the significant result exactly when the
observed mean is strictly greater than the confidence percentile, linearly
interpolated between order statistics, of the sorted batch of simulated trial
averages. -/
theorem favouritism_significant_iff_observed_gt_threshold (env : Env) (csv : List PRow)
    (x y : String) (ys ye : Int) (jD tD : List (List Nat)) (conf : Rat)
    (hxy : x ≠ y) (hspan : applicableSpan csv x y ys ye ≠ []) :
    favouritism env csv x y ys ye jD tD conf = some true ↔
      thresholdValue env csv x y ys ye jD tD conf < observedMean csv x y ys ye := by
  unfold favouritism
  rw [if_neg hxy, if_neg hspan]
  simp

/-- Witness for the C1 theorem at a concrete input. -/
theorem favouritism_significant_iff_observed_gt_threshold_witness :
    favouritism sampleEnv [⟨2000, "a", "b", 1⟩] "a" "b" 2000 2018 [[1]] [[1]] 95 =
      some true := by
  have h := favouritism_significant_iff_observed_gt_threshold sampleEnv
    [⟨2000, "a", "b", 1⟩] "a" "b" 2000 2018 [[1]] [[1]] 95 (by decide) (by decide)
  refine h.mpr ?_
  norm_num [thresholdValue, observedMean, sortedBatch, spanYears, simulationBatch,
    simTrialPoints, mean, npPercentile, searchsorted, scoreBreaks, rankToPoints,
    sampleEnv, applicableSpan, List.filter, List.insertionSort, List.orderedInsert,
    List.zip, List.zipWith, Rat.floor]

/-- C2: the rank-to-points mapping yields exactly the ladder [12,10,8,7,6,5,4,3,2,1]
at position r for ranks r in 1..10, and 0 points for every rank above 10. -/
theorem rankToPoints_matches_ladder (r : Nat) :
    (1 ≤ r → r ≤ 10 → rankToPoints r = scoreLadder.getD (r - 1) 0) ∧
    (10 < r → rankToPoints r = 0) := by
  constructor
  · intro h1 h2
    interval_cases r <;>
      norm_num [rankToPoints, searchsorted, scoreBreaks, scoreLadder, List.filter]
  · intro h
    unfold rankToPoints
    rw [if_pos h]

/-- Witness for the C2 theorem at concrete ranks. -/
theorem rankToPoints_matches_ladder_witness :
    rankToPoints 1 = scoreLadder.getD 0 0 ∧ rankToPoints 11 = 0 :=
  ⟨(rankToPoints_matches_ladder 1).1 (by decide) (by decide),
   (rankToPoints_matches_ladder 11).2 (by decide)⟩

/-- C4 counterexample: the favouritism test of a country toward itself returns the
boolean False (the not-significant value), not the distinct NO_DATA value None, so
the claim that it returns NO_DATA fails on the code. -/
theorem favouritism_self_counterexample :
    favouritism sampleEnv [] "a" "a" 2000 2018 [[1]] [[1]] 95 = some false ∧
      favouritism sampleEnv [] "a" "a" 2000 2018 [[1]] [[1]] 95 ≠ none := by
  decide

/-- C4 amended: the favouritism test of a country toward itself returns False for
every underlying table, period range and random draws; since the result does not
depend on the table or on the draws, no simulation is run. -/
theorem favouritism_self_returns_false (env : Env) (csv : List PRow) (x : String)
    (ys ye : Int) (jD tD : List (List Nat)) (conf : Rat) :
    favouritism env csv x x ys ye jD tD conf = some false := by
  unfold favouritism
  rw [if_pos rfl]

/-- C5: when the applicable span is empty (no record for the exact donor/recipient
pair in any period of the range, donor distinct from recipient), the favouritism test
returns None (NO_DATA), which differs from every boolean outcome, in particular from
the not-significant False of a test that ran. -/
theorem favouritism_empty_span_noData (env : Env) (csv : List PRow) (x y : String)
    (ys ye : Int) (jD tD : List (List Nat)) (conf : Rat)
    (hxy : x ≠ y) (hspan : applicableSpan csv x y ys ye = []) :
    favouritism env csv x y ys ye jD tD conf = none ∧
      ∀ b : Bool, favouritism env csv x y ys ye jD tD conf ≠ some b := by
  have h : favouritism env csv x y ys ye jD tD conf = none := by
    unfold favouritism
    rw [if_neg hxy, if_pos hspan]
  refine ⟨h, ?_⟩
  intro b
  rw [h]
  simp

/-- Witness for the C5 theorem at a concrete input. -/
theorem favouritism_empty_span_noData_witness :
    favouritism sampleEnv [⟨2000, "b", "a", 0⟩] "a" "b" 2000 2018 [[1]] [[1]] 95 =
        none ∧
      ∀ b : Bool,
        favouritism sampleEnv [⟨2000, "b", "a", 0⟩] "a" "b" 2000 2018 [[1]] [[1]] 95 ≠
          some b :=
  favouritism_empty_span_noData sampleEnv [⟨2000, "b", "a", 0⟩] "a" "b" 2000 2018
    [[1]] [[1]] 95 (by decide) (by decide)

/-- C3 counterexample: with no data in the x to y direction (a NO_DATA outcome), the
collusion test returns None, not the boolean False the claim demands. -/
theorem collusion_noData_counterexample :
    favouritism sampleEnv [] "a" "b" 2000 2018 [[1]] [[1]] 95 = none ∧
      collusion sampleEnv [] "a" "b" 2000 2018 [[1]] [[1]] [[1]] [[1]] 95 = none ∧
      collusion sampleEnv [] "a" "b" 2000 2018 [[1]] [[1]] [[1]] [[1]] 95 ≠
        some false := by
  decide

/-- C3 amended: the collusion test returns True exactly when both directional
favouritism tests are significant; when either direction yields NO_DATA the result is
a falsy value rather than an error (None, in particular, when the first direction
yields NO_DATA), never the significant True. -/
theorem collusion_true_iff_both_significant (env : Env) (csv : List PRow)
    (x y : String) (ys ye : Int) (jD1 tD1 jD2 tD2 : List (List Nat)) (conf : Rat) :
    (collusion env csv x y ys ye jD1 tD1 jD2 tD2 conf = some true ↔
      (favouritism env csv x y ys ye jD1 tD1 conf = some true ∧
       favouritism env csv y x ys ye jD2 tD2 conf = some true)) ∧
    (favouritism env csv x y ys ye jD1 tD1 conf = none →
      collusion env csv x y ys ye jD1 tD1 jD2 tD2 conf = none) ∧
    (favouritism env csv x y ys ye jD1 tD1 conf = none ∨
      favouritism env csv y x ys ye jD2 tD2 conf = none →
      collusion env csv x y ys ye jD1 tD1 jD2 tD2 conf ≠ some true) := by
  refine ⟨collusion_eq_true_iff env csv x y ys ye jD1 tD1 jD2 tD2 conf, ?_, ?_⟩
  · intro h1
    unfold collusion
    rw [h1]
  · intro hd hc
    rcases (collusion_eq_true_iff env csv x y ys ye jD1 tD1 jD2 tD2 conf).mp hc
      with ⟨h1, h2⟩
    rcases hd with hd | hd
    · rw [hd] at h1
      cases h1
    · rw [hd] at h2
      cases h2

/-- Witness for the C3 amended theorem at a concrete input. -/
theorem collusion_true_iff_both_significant_witness :
    collusion sampleEnv [] "a" "c" 2000 2018 [[2]] [[2]] [[2]] [[2]] 95 = none :=
  (collusion_true_iff_both_significant sampleEnv [] "a" "c" 2000 2018
    [[2]] [[2]] [[2]] [[2]] 95).2.1 (by decide)

/-- C6 counterexample: with a record only in the b to a direction, collusion(a, b)
returns None (first direction NO_DATA) while collusion(b, a) under identical draws
returns False (first direction ran and was not significant), so the two results are
not equal. -/
theorem collusion_not_symmetric_counterexample :
    collusion sampleEnv [⟨2000, "b", "a", 0⟩] "a" "b" 2000 2018
        [[1]] [[1]] [[1]] [[1]] 95 ≠
      collusion sampleEnv [⟨2000, "b", "a", 0⟩] "b" "a" 2000 2018
        [[1]] [[1]] [[1]] [[1]] 95 := by
  have h1 : collusion sampleEnv [⟨2000, "b", "a", 0⟩] "a" "b" 2000 2018
      [[1]] [[1]] [[1]] [[1]] 95 = none := by
    decide
  have hf : favouritism sampleEnv [⟨2000, "b", "a", 0⟩] "b" "a" 2000 2018
      [[1]] [[1]] 95 = some false := by
    norm_num [favouritism, applicableSpan, observedMean, thresholdValue, sortedBatch,
      spanYears, simulationBatch, simTrialPoints, mean, npPercentile, searchsorted,
      scoreBreaks, rankToPoints, sampleEnv, List.filter, List.insertionSort,
      List.orderedInsert, List.zip, List.zipWith, Rat.floor]
  have h2 : collusion sampleEnv [⟨2000, "b", "a", 0⟩] "b" "a" 2000 2018
      [[1]] [[1]] [[1]] [[1]] 95 = some false := by
    unfold collusion
    rw [hf]
  rw [h1, h2]
  simp

/-- C6 amended: the collusion results for (x, y) and for (y, x) agree as truth values
(each call is True exactly when the other is, the second call receiving the two draw
sets in swapped order), though not necessarily as identical Python values: one side
can be None while the other is False. -/
theorem collusion_symmetric_truthiness (env : Env) (csv : List PRow) (x y : String)
    (ys ye : Int) (jD1 tD1 jD2 tD2 : List (List Nat)) (conf : Rat) :
    collusion env csv x y ys ye jD1 tD1 jD2 tD2 conf = some true ↔
      collusion env csv y x ys ye jD2 tD2 jD1 tD1 conf = some true := by
  rw [collusion_eq_true_iff, collusion_eq_true_iff]
  exact and_comm

/-- C7 counterexample: a 2016 recipient with only a televote record is dropped from the
combined record set entirely, rather than being kept with zero jury points. -/
theorem televote_only_dropped_counterexample :
    combinedCsv [⟨2016, "T", "x", "y", 12⟩] = [] ∧
      ∀ c : CombRow, c ∉ combinedCsv [⟨2016, "T", "x", "y", 12⟩] := by
  have h : combinedCsv [⟨2016, "T", "x", "y", 12⟩] = [] := by decide
  refine ⟨h, ?_⟩
  intro c hc
  rw [h] at hc
  cases hc

/-- C7 amended: a merged record for a secondary-era key (year at least 2016) exists
only when a PRIMARY (jury) record for that key exists, and the jury points of the merged record
points come from that record; recipients that received only a SECONDARY (televote)
vote are excluded from the merged set, never zero-filled. -/
theorem combined_secondary_era_has_primary (csv : List RawRow) (c : CombRow)
    (hc : c ∈ combinedCsv csv) (hy : 2016 ≤ c.year) :
    ∃ l, l ∈ csv ∧ l.year = c.year ∧ l.fromC = c.fromC ∧ l.toC = c.toC ∧
      l.jorT = "J" ∧ l.points = c.ptsJury := by
  obtain ⟨l, r, hl, _, _, _, _, hcond, hcy, hcf, hct, hcj, _, _⟩ := mem_combinedCsv hc
  rcases hcond with hlt | ⟨_, hJ, _⟩
  · rw [hcy] at hy
    omega
  · exact ⟨l, hl, hcy.symm, hcf.symm, hct.symm, hJ, hcj.symm⟩

/-- Witness for the C7 amended theorem at a concrete input. -/
theorem combined_secondary_era_has_primary_witness :
    ∃ l, l ∈ [(⟨2016, "J", "a", "b", 3⟩ : RawRow), ⟨2016, "T", "a", "b", 7⟩] ∧
      l.year = 2016 ∧ l.fromC = "a" ∧ l.toC = "b" ∧ l.jorT = "J" ∧ l.points = 3 :=
  combined_secondary_era_has_primary
    [⟨2016, "J", "a", "b", 3⟩, ⟨2016, "T", "a", "b", 7⟩]
    ⟨2016, "a", "b", 3, 7, 10⟩ (by decide) (by decide)

/-- C8 counterexample: two raw records with the same (period, channel, donor,
recipient) key but different points pass through the deduplication step untouched and
are then silently merged pairwise (producing four combined rows); no error of any
kind is raised. -/
theorem duplicate_key_kept_counterexample :
    dropDuplicates [(⟨2015, "J", "a", "b", 12⟩ : RawRow), ⟨2015, "J", "a", "b", 0⟩] =
        [⟨2015, "J", "a", "b", 12⟩, ⟨2015, "J", "a", "b", 0⟩] ∧
      (combinedCsv (dropDuplicates
          [(⟨2015, "J", "a", "b", 12⟩ : RawRow), ⟨2015, "J", "a", "b", 0⟩])).length =
        4 := by
  decide

/-- C8 amended: the cleaning step never fails; it silently drops exact duplicate rows
(the result has no duplicates) and retains every distinct row, in particular records
sharing a (period, channel, donor, recipient) key while differing in points. -/
theorem dropDuplicates_nodup_and_preserves_membership (l : List RawRow) :
    (dropDuplicates l).Nodup ∧ ∀ x : RawRow, x ∈ dropDuplicates l ↔ x ∈ l := by
  refine ⟨nodup_keepFirst l [], ?_⟩
  intro x
  unfold dropDuplicates
  rw [mem_keepFirst l [] x]
  simp

/-- C9: every record of the normalized points table built from the combined record set
has its normalized total inside the closed unit interval, provided all raw points are
nonnegative and the year of the record has a positive maximum (the year-wide maximum jury
points plus the year-wide maximum televote points). -/
theorem pointsTable_pct_in_unit_interval (csv : List RawRow) (n : PRow)
    (hn : n ∈ pointsTable (combinedCsv csv))
    (hpts : ∀ r ∈ csv, 0 ≤ r.points)
    (hmax : 0 < highest (combinedCsv csv) n.year) :
    0 ≤ n.ptsTotal ∧ n.ptsTotal ≤ 1 := by
  obtain ⟨c, hc, hcn⟩ := List.mem_map.mp hn
  have hyear : n.year = c.year := by
    rw [← hcn]
  have hval : n.ptsTotal =
      (c.ptsTotal : Rat) / (highest (combinedCsv csv) c.year : Rat) := by
    rw [← hcn]
  rw [hyear] at hmax
  obtain ⟨l, r, hl, hr, _, _, _, _, _, _, _, hcj, hcte, hctot⟩ := mem_combinedCsv hc
  have h0j : 0 ≤ c.ptsJury := by
    rw [hcj]
    exact hpts l hl
  have h0t : 0 ≤ c.ptsTele := by
    rw [hcte]
    split
    · exact le_refl 0
    · exact hpts r hr
  have h0 : 0 ≤ c.ptsTotal := by omega
  have hjle := ptsJury_le_maxJury hc
  have htle := ptsTele_le_maxTele hc
  have hle : c.ptsTotal ≤ highest (combinedCsv csv) c.year := by
    unfold highest
    omega
  have hmaxQ : (0 : Rat) < (highest (combinedCsv csv) c.year : Rat) := by
    exact_mod_cast hmax
  rw [hval]
  constructor
  · exact div_nonneg (by exact_mod_cast h0) (le_of_lt hmaxQ)
  · rw [div_le_one hmaxQ]
    exact_mod_cast hle

/-- Witness for the C9 theorem at a concrete input. -/
theorem pointsTable_pct_in_unit_interval_witness :
    0 ≤ (⟨2015, "a", "b", 1⟩ : PRow).ptsTotal ∧
      (⟨2015, "a", "b", 1⟩ : PRow).ptsTotal ≤ 1 :=
  pointsTable_pct_in_unit_interval [⟨2015, "J", "a", "b", 5⟩] ⟨2015, "a", "b", 1⟩
    (by norm_num [pointsTable, combinedCsv, highest, maxJury, maxTele, List.filter])
    (by decide) (by decide)

/-- C10: in a favouritism test reaching the simulation phase, the internal assertions
hold: every drawn rank (jury and televote) is at most the corresponding periods
participant count, and every simulated normalized trial average in the sorted batch
is at least 0.  The hypotheses record the support of rng.integers(1, N) (ranks lie in
[1, N-1]) and the nonnegativity of the yearly maximum receivable points. -/
theorem simulation_internal_assertions (env : Env) (csv : List PRow) (x y : String)
    (ys ye : Int) (jD tD : List (List Nat))
    (hj : ∀ row ∈ jD, ∀ j, j < row.length →
      1 ≤ row.getD j 0 ∧
        row.getD j 0 < env.participants ((spanYears csv x y ys ye).getD j 0))
    (ht : ∀ row ∈ tD, ∀ j, j < row.length →
      1 ≤ row.getD j 0 ∧
        row.getD j 0 < env.participants ((spanYears csv x y ys ye).getD j 0))
    (hmax : ∀ yr ∈ spanYears csv x y ys ye, 0 ≤ env.maxPts yr) :
    (∀ row ∈ jD, ∀ j, j < row.length →
      row.getD j 0 ≤ env.participants ((spanYears csv x y ys ye).getD j 0)) ∧
    (∀ row ∈ tD, ∀ j, j < row.length →
      row.getD j 0 ≤ env.participants ((spanYears csv x y ys ye).getD j 0)) ∧
    ∀ v ∈ sortedBatch env csv x y ys ye jD tD, 0 ≤ v := by
  refine ⟨fun row hrow j hjlt => le_of_lt (hj row hrow j hjlt).2,
    fun row hrow j hjlt => le_of_lt (ht row hrow j hjlt).2, ?_⟩
  intro v hv
  have hv1 : v ∈ simulationBatch env (spanYears csv x y ys ye) jD tD := by
    unfold sortedBatch at hv
    exact (List.perm_insertionSort _ _).mem_iff.mp hv
  exact simulationBatch_nonneg env _ jD tD hmax v hv1

/-- Witness for the C10 theorem at a concrete input. -/
theorem simulation_internal_assertions_witness :
    (∀ row ∈ [[1]], ∀ j, j < List.length row →
      row.getD j 0 ≤ sampleEnv.participants
        ((spanYears [⟨2001, "a", "b", 1⟩] "a" "b" 2000 2018).getD j 0)) ∧
    (∀ row ∈ [[1]], ∀ j, j < List.length row →
      row.getD j 0 ≤ sampleEnv.participants
        ((spanYears [⟨2001, "a", "b", 1⟩] "a" "b" 2000 2018).getD j 0)) ∧
    ∀ v ∈ sortedBatch sampleEnv [⟨2001, "a", "b", 1⟩] "a" "b" 2000 2018 [[1]] [[1]],
      0 ≤ v :=
  simulation_internal_assertions sampleEnv [⟨2001, "a", "b", 1⟩] "a" "b" 2000 2018
    [[1]] [[1]] (by decide) (by decide)
    (by norm_num [spanYears, applicableSpan, sampleEnv, List.filter])

end Eurovision
